import Mathlib

/-!
Verification of the `CompressSirius` tiered compression operator
(`source/adios2/operator/compress/CompressSirius.h`).

The repository exposes only the class interface: `Compress`, `Decompress`,
`IsDataTypeValid`, a constructor taking a `Params` map, a defaulted
destructor, and static tier state (`m_TierBuffers`, `m_CurrentTier`,
`m_Tiers`).  The member-function bodies are not part of the available
sources, so the operational behaviour below is modelled from the
specification's component contracts (sections 4.1-4.4 of the design
document), while the state layout (tier buffers, current-tier cursor, tier
count; all static, destructor a no-op on them) follows the header.

Bytes are modelled as `Nat`, buffers as `List Nat`, the `Params` string map
as an association list.
-/

/-- Element-type tag attached to every array the operator processes
(`DataType` in the host library). -/
inductive DataType where
  | int8
  | int16
  | int32
  | int64
  | uint8
  | uint16
  | uint32
  | uint64
  | float32
  | float64
  | complex64
  | complex128
  | strType
  deriving DecidableEq, Repr

/-- Modelled from the spec: the body of `CompressSirius::IsDataTypeValid`
is not under the available sources; section 4.1 fixes only that it is a pure
predicate of the element type with a set of accepted types fixed at build
time.  We model the accepted set as the numeric (integer, floating,
complex) types, rejecting the string type. -/
def IsDataTypeValid : DataType → Bool
  | .strType => false
  | _ => true

/-- The error taxonomy of section 7 of the specification. -/
inductive SiriusError where
  | typeUnsupported
  | tierConfigurationError
  | tierConfigurationConflict
  | tierDataMissing
  | metadataCorrupt
  deriving DecidableEq, Repr

/-- The Tier Store: the static state of `CompressSirius`
(`m_Tiers`, `m_TierBuffers`, `m_CurrentTier` in the header). -/
structure TierStore where
  tiers : Nat
  buffers : List (List Nat)
  currentTier : Nat
  deriving DecidableEq, Repr

/-- The tier buffer at index `i` (empty when out of range). -/
def TierStore.bufAt (st : TierStore) (i : Nat) : List Nat :=
  st.buffers.getD i []

/-- Well-formedness of the Tier Store: one buffer per tier, and the cursor
invariant `0 ≤ CurrentTier < tierCount` of section 3. -/
def TierStore.WF (st : TierStore) : Prop :=
  st.buffers.length = st.tiers ∧ st.currentTier < st.tiers

instance (st : TierStore) : Decidable st.WF := by
  unfold TierStore.WF; infer_instance

/-- The metadata record a Compress call embeds in its output (section 4.2,
step 3): which tier received the write, the byte range within that tier's
buffer, and the original shape/type/element size. -/
structure Metadata where
  tier : Nat
  first : Nat
  stop : Nat
  shape : List Nat
  dtype : DataType
  elementSize : Nat
  deriving DecidableEq, Repr

/-- The self-describing buffer returned by Compress (section 4.2, step 5):
the metadata plus a copy of the newly written bytes. -/
structure EncodedBuffer where
  meta : Metadata
  payload : List Nat
  deriving DecidableEq, Repr

/-- Size in bytes of the serialized encoded buffer: a fixed-size header for
the six scalar metadata fields, one word per shape extent, then the
payload. -/
def encodedSize (enc : EncodedBuffer) : Nat :=
  6 + enc.meta.shape.length + enc.payload.length

/-- Modelled from the spec: the body of `CompressSirius::Compress` is not
under the available sources; this follows the section 4.2 contract —
validate the type, require an established `tierCount ≥ 1`, append the input
bytes to the current tier's buffer, record the metadata, advance the cursor
round-robin, and return the self-describing output.  On failure the store
is returned untouched. -/
def Compress (st : TierStore) (dataIn : List Nat) (dims : List Nat)
    (elementSize : Nat) (ty : DataType) :
    Except SiriusError EncodedBuffer × TierStore :=
  if IsDataTypeValid ty then
    if st.tiers = 0 then (.error .tierConfigurationError, st)
    else
      let t := st.currentTier
      let old := st.bufAt t
      let meta : Metadata :=
        ⟨t, old.length, old.length + dataIn.length, dims, ty, elementSize⟩
      (.ok ⟨meta, dataIn⟩,
        ⟨st.tiers, st.buffers.set t (old ++ dataIn), (t + 1) % st.tiers⟩)
  else (.error .typeUnsupported, st)

/-- Read a byte range `[first, stop)` out of a tier buffer. -/
def extractRange (buf : List Nat) (first stop : Nat) : List Nat :=
  (buf.drop first).take (stop - first)

/-- Modelled from the spec: the body of `CompressSirius::Decompress` is not
under the available sources; this follows the section 4.3 contract — gate
on the type validator, check the metadata against the declared shape and
type, require the referenced tier/byte-range to still exist in the Tier
Store, and reassemble the original bytes.  The Tier Store is read, never
mutated. -/
def Decompress (st : TierStore) (enc : EncodedBuffer) (dims : List Nat)
    (ty : DataType) : Except SiriusError (List Nat) :=
  if IsDataTypeValid ty then
    if enc.meta.dtype = ty ∧ enc.meta.shape = dims then
      if enc.meta.tier < st.buffers.length ∧
          enc.meta.stop ≤ (st.bufAt enc.meta.tier).length then
        .ok (extractRange (st.bufAt enc.meta.tier) enc.meta.first enc.meta.stop)
      else .error .tierDataMissing
    else .error .metadataCorrupt
  else .error .typeUnsupported

/-- Decompress paired with the (unchanged) store it ran against, making the
read-only frame of the Tier Store explicit. -/
def DecompressRun (st : TierStore) (enc : EncodedBuffer) (dims : List Nat)
    (ty : DataType) : Except SiriusError (List Nat) × TierStore :=
  (Decompress st enc dims ty, st)

/-- Modelled from the spec: `Reset()` of the section 4.4 Tier Store
contract — clears all tier buffers and the cursor. -/
def Reset (st : TierStore) : TierStore :=
  ⟨st.tiers, List.replicate st.tiers [], 0⟩

/-- A freshly initialized Tier Store with `n` tiers: `n` empty buffers and
`CurrentTier = 0` (section 4.4 `Init`). -/
def initStore (n : Nat) : TierStore :=
  ⟨n, List.replicate n [], 0⟩

/-- Modelled from the spec: the body of the `CompressSirius` constructor is
not under the available sources; per section 6, the tier count is derived
from the string-to-string `Params` map and a missing or invalid value fails
construction with a configuration error rather than defaulting. -/
def constructSirius (parameters : List (String × String)) :
    Except SiriusError TierStore :=
  match parameters.lookup "tiers" with
  | none => .error .tierConfigurationError
  | some v =>
    match v.toNat? with
    | none => .error .tierConfigurationError
    | some n => if n = 0 then .error .tierConfigurationError else .ok (initStore n)

/-- The destructor `~CompressSirius() = default` from the header: the class
has no non-static data members, so destroying an instance leaves the static
Tier Store exactly as it was. -/
def destructSirius (st : TierStore) : TierStore := st

/-- `k` successive Compress calls with a fixed input, tracking only the
store (used to state the tier-rotation property). -/
def compressN (dataIn dims : List Nat) (elementSize : Nat) (ty : DataType) :
    Nat → TierStore → TierStore
  | 0, st => st
  | k + 1, st =>
      compressN dataIn dims elementSize ty k
        (Compress st dataIn dims elementSize ty).2

/-! ### Helper lemmas -/

theorem getD_set_self (bs : List (List Nat)) (n : Nat) (a : List Nat)
    (h : n < bs.length) : (bs.set n a).getD n [] = a := by
  rw [List.getD_eq_getElem _ _ (by simpa using h)]
  simp

theorem getD_set_ne (bs : List (List Nat)) (m n : Nat) (a : List Nat)
    (h : m ≠ n) : (bs.set n a).getD m [] = bs.getD m [] := by
  rcases Nat.lt_or_ge m bs.length with hm | hm
  · rw [List.getD_eq_getElem _ _ (by simpa using hm), List.getD_eq_getElem _ _ hm]
    exact List.getElem_set_ne (fun hnm => h hnm.symm) _
  · rw [List.getD_eq_default _ _ (by simpa using hm), List.getD_eq_default _ _ hm]

theorem getD_replicate_nil (n i : Nat) :
    (List.replicate n ([] : List Nat)).getD i [] = [] := by
  rcases Nat.lt_or_ge i n with hi | hi
  · rw [List.getD_eq_getElem _ _ (by simpa using hi)]
    simp
  · exact List.getD_eq_default _ _ (by simpa using hi)

/-- Characterization of a successful Compress call. -/
theorem Compress_ok (st : TierStore) (d dims : List Nat) (es : Nat)
    (ty : DataType) (hty : IsDataTypeValid ty = true) (ht : st.tiers ≠ 0) :
    Compress st d dims es ty =
      (.ok ⟨⟨st.currentTier, (st.bufAt st.currentTier).length,
            (st.bufAt st.currentTier).length + d.length, dims, ty, es⟩, d⟩,
       ⟨st.tiers,
        st.buffers.set st.currentTier (st.bufAt st.currentTier ++ d),
        (st.currentTier + 1) % st.tiers⟩) := by
  unfold Compress
  rw [if_pos hty, if_neg ht]

/-- Characterization of a successful Decompress call. -/
theorem Decompress_ok (st : TierStore) (enc : EncodedBuffer)
    (dims : List Nat) (ty : DataType) (hty : IsDataTypeValid ty = true)
    (hm : enc.meta.dtype = ty ∧ enc.meta.shape = dims)
    (hr : enc.meta.tier < st.buffers.length ∧
      enc.meta.stop ≤ (st.bufAt enc.meta.tier).length) :
    Decompress st enc dims ty =
      .ok (extractRange (st.bufAt enc.meta.tier) enc.meta.first enc.meta.stop) := by
  unfold Decompress
  rw [if_pos hty, if_pos hm, if_pos hr]

/-- Core round-trip lemma: decompressing the output of a successful Compress
call against the post-Compress store recovers the input bytes. -/
theorem decompress_after_compress (st : TierStore) (d dims : List Nat)
    (es : Nat) (ty : DataType) (enc : EncodedBuffer) (st' : TierStore)
    (hty : IsDataTypeValid ty = true) (hwf : st.WF)
    (h : Compress st d dims es ty = (.ok enc, st')) :
    Decompress st' enc dims ty = .ok d := by
  obtain ⟨hlen, hcur⟩ := hwf
  have ht : st.tiers ≠ 0 := by omega
  rw [Compress_ok st d dims es ty hty ht] at h
  obtain ⟨h1, h2⟩ := Prod.mk.injEq .. ▸ h
  obtain rfl : st' = _ := h2.symm
  obtain rfl : enc = _ := (Except.ok.injEq .. ▸ h1).symm
  have hcur' : st.currentTier < st.buffers.length := by omega
  have hb : TierStore.bufAt
      ⟨st.tiers, st.buffers.set st.currentTier (st.bufAt st.currentTier ++ d),
        (st.currentTier + 1) % st.tiers⟩ st.currentTier =
      st.bufAt st.currentTier ++ d :=
    getD_set_self _ _ _ hcur'
  rw [Decompress_ok _ _ _ _ hty ⟨rfl, rfl⟩
      ⟨by simpa using hcur', by rw [hb]; simp⟩]
  rw [hb]
  unfold extractRange
  rw [List.drop_left]
  simp

/-- Tier count and cursor after `k` successive Compress calls. -/
theorem compressN_spec (d dims : List Nat) (es : Nat) (ty : DataType)
    (hty : IsDataTypeValid ty = true) (N : Nat) (hN : 0 < N) :
    ∀ (k : Nat) (st : TierStore), st.tiers = N → st.currentTier < N →
      (compressN d dims es ty k st).tiers = N ∧
      (compressN d dims es ty k st).currentTier = (st.currentTier + k) % N := by
  intro k
  induction k with
  | zero =>
    intro st h1 h2
    exact ⟨h1, by simp [compressN, Nat.mod_eq_of_lt h2]⟩
  | succ k ih =>
    intro st h1 h2
    have ht : st.tiers ≠ 0 := by omega
    have hstep := Compress_ok st d dims es ty hty ht
    have hpair : (Compress st d dims es ty).2 =
        ⟨st.tiers,
          st.buffers.set st.currentTier (st.bufAt st.currentTier ++ d),
          (st.currentTier + 1) % st.tiers⟩ := by rw [hstep]
    have h1' : (Compress st d dims es ty).2.tiers = N := by rw [hpair]; exact h1
    have hc1 : (Compress st d dims es ty).2.currentTier =
        (st.currentTier + 1) % N := by rw [hpair]; simp [h1]
    have h2' : (Compress st d dims es ty).2.currentTier < N := by
      rw [hc1]; exact Nat.mod_lt _ hN
    obtain ⟨ha, hb⟩ := ih (Compress st d dims es ty).2 h1' h2'
    refine ⟨by simpa [compressN] using ha, ?_⟩
    have : (compressN d dims es ty (k + 1) st) =
        compressN d dims es ty k (Compress st d dims es ty).2 := by
      simp [compressN]
    rw [this, hb, hc1, Nat.mod_add_mod]
    congr 1
    omega

/-! ### Claim theorems -/

/-- Claim C1: for every supported element type and every input byte array
(including the empty one), decompressing the output of a successful
Compress call — against the store state left by that call, i.e. with no
intervening reset — returns the input byte-for-byte. -/
theorem c1_compress_decompress_roundtrip (st : TierStore) (d dims : List Nat)
    (es : Nat) (ty : DataType) (enc : EncodedBuffer) (st' : TierStore)
    (hty : IsDataTypeValid ty = true) (hwf : st.WF)
    (h : Compress st d dims es ty = (.ok enc, st')) :
    Decompress st' enc dims ty = .ok d :=
  decompress_after_compress st d dims es ty enc st' hty hwf h

/-- Witness for C1 at a concrete input (tier count 2, nonempty payload). -/
theorem c1_compress_decompress_roundtrip_witness :
    Decompress (Compress (initStore 2) [7, 8, 9] [3] 1 .float64).2
      ⟨⟨0, 0, 3, [3], .float64, 1⟩, [7, 8, 9]⟩ [3] .float64 = .ok [7, 8, 9] :=
  c1_compress_decompress_roundtrip (initStore 2) [7, 8, 9] [3] 1 .float64
    ⟨⟨0, 0, 3, [3], .float64, 1⟩, [7, 8, 9]⟩
    (Compress (initStore 2) [7, 8, 9] [3] 1 .float64).2
    (by decide) (by decide) rfl

/-- Claim C2: with an established tier count `N ≥ 1`, the cursor invariant
`CurrentTier < N` is preserved by Compress, each successful call advances
the cursor to `(CurrentTier + 1) % N`, the `i`-th call (0-indexed from
initialization) writes to tier `i % N`, and `N` consecutive calls return
the cursor to its initial value. -/
theorem c2_tier_rotation (d dims : List Nat) (es : Nat) (ty : DataType)
    (N : Nat) (hty : IsDataTypeValid ty = true) (hN : 0 < N) :
    (∀ st : TierStore, st.tiers = N → st.currentTier < N →
      (Compress st d dims es ty).2.currentTier = (st.currentTier + 1) % N ∧
      (Compress st d dims es ty).2.currentTier < N) ∧
    (∀ i : Nat, ∀ e : EncodedBuffer,
      (Compress (compressN d dims es ty i (initStore N)) d dims es ty).1 = .ok e →
      e.meta.tier = i % N) ∧
    (compressN d dims es ty N (initStore N)).currentTier =
      (initStore N).currentTier := by
  have hstep : ∀ st : TierStore, st.tiers = N → st.currentTier < N →
      (Compress st d dims es ty).2.currentTier = (st.currentTier + 1) % N ∧
      (Compress st d dims es ty).2.currentTier < N := by
    intro st h1 h2
    have ht : st.tiers ≠ 0 := by omega
    have hpair : (Compress st d dims es ty).2 =
        ⟨st.tiers,
          st.buffers.set st.currentTier (st.bufAt st.currentTier ++ d),
          (st.currentTier + 1) % st.tiers⟩ := by
      rw [Compress_ok st d dims es ty hty ht]
    constructor
    · rw [hpair]; simp [h1]
    · rw [hpair]; simp only [h1]; exact Nat.mod_lt _ hN
  refine ⟨hstep, ?_, ?_⟩
  · intro i e he
    obtain ⟨h1, h2⟩ := compressN_spec d dims es ty hty N hN i (initStore N)
      rfl (by simpa [initStore] using hN)
    have ht : (compressN d dims es ty i (initStore N)).tiers ≠ 0 := by omega
    rw [Compress_ok _ d dims es ty hty ht] at he
    obtain rfl : e = _ := (Except.ok.injEq .. ▸ he).symm
    simpa [initStore] using h2
  · obtain ⟨h1, h2⟩ := compressN_spec d dims es ty hty N hN N (initStore N)
      rfl (by simpa [initStore] using hN)
    rw [h2]
    simp [initStore, Nat.add_mod_left]

/-- Witness for C2: two tiers, three-byte payload; after 2 calls the cursor
is back at 0. -/
theorem c2_tier_rotation_witness :
    (compressN [1, 2] [2] 1 .int32 2 (initStore 2)).currentTier =
      (initStore 2).currentTier :=
  (c2_tier_rotation [1, 2] [2] 1 .int32 2 (by decide) (by decide)).2.2

/-- Claim C3: a Compress or Decompress call with an unsupported element
type fails with `typeUnsupported` and leaves the Tier Store untouched —
the returned store is the one passed in, so every tier buffer and the
cursor are unchanged. -/
theorem c3_unsupported_type_rejected (st : TierStore) (d dims : List Nat)
    (es : Nat) (ty : DataType) (enc : EncodedBuffer)
    (hty : IsDataTypeValid ty = false) :
    Compress st d dims es ty = (.error .typeUnsupported, st) ∧
    (∀ i, ((Compress st d dims es ty).2.bufAt i).length = (st.bufAt i).length) ∧
    (Compress st d dims es ty).2.currentTier = st.currentTier ∧
    Decompress st enc dims ty = .error .typeUnsupported := by
  have hc : Compress st d dims es ty = (.error .typeUnsupported, st) := by
    unfold Compress
    rw [if_neg (by simp [hty])]
  refine ⟨hc, fun i => by rw [hc], by rw [hc], ?_⟩
  unfold Decompress
  rw [if_neg (by simp [hty])]

/-- Witness for C3: the string type is rejected with the store untouched. -/
theorem c3_unsupported_type_rejected_witness :
    Compress (initStore 2) [1] [1] 1 .strType =
      (.error .typeUnsupported, initStore 2) ∧
    Decompress (initStore 2) ⟨⟨0, 0, 1, [1], .strType, 1⟩, [1]⟩ [1] .strType =
      .error .typeUnsupported :=
  ⟨(c3_unsupported_type_rejected (initStore 2) [1] [1] 1 .strType
      ⟨⟨0, 0, 1, [1], .strType, 1⟩, [1]⟩ (by decide)).1,
   (c3_unsupported_type_rejected (initStore 2) [1] [1] 1 .strType
      ⟨⟨0, 0, 1, [1], .strType, 1⟩, [1]⟩ (by decide)).2.2.2⟩

/-- Claim C4: with no established tier count (`tiers = 0`, i.e. unset or
invalid), Compress fails with `tierConfigurationError` even for a supported
type; and construction from a parameter map lacking the tier-count key
fails with `tierConfigurationError`. -/
theorem c4_missing_tier_configuration (st : TierStore) (d dims : List Nat)
    (es : Nat) (ty : DataType) (params : List (String × String))
    (hst : st.tiers = 0) (hty : IsDataTypeValid ty = true)
    (hp : params.lookup "tiers" = none) :
    Compress st d dims es ty = (.error .tierConfigurationError, st) ∧
    constructSirius params = .error .tierConfigurationError := by
  constructor
  · unfold Compress
    rw [if_pos hty, if_pos hst]
  · unfold constructSirius
    rw [hp]

/-- Witness for C4: zero-tier store and an empty parameter map. -/
theorem c4_missing_tier_configuration_witness :
    Compress ⟨0, [], 0⟩ [1] [1] 1 .int32 =
      (.error .tierConfigurationError, ⟨0, [], 0⟩) ∧
    constructSirius [] = .error .tierConfigurationError :=
  c4_missing_tier_configuration ⟨0, [], 0⟩ [1] [1] 1 .int32 []
    rfl (by decide) rfl

/-- Claim C5: `Reset` clears every tier buffer and the cursor; after a
reset, decompressing an encoded buffer that references pre-reset tier data
(a nonempty byte range) fails with `tierDataMissing`; and a fresh
Compress/Decompress pair performed after the reset still round-trips. -/
theorem c5_reset_clears_invalidates (st : TierStore) (enc : EncodedBuffer)
    (d dims : List Nat) (es : Nat) (ty : DataType)
    (enc2 : EncodedBuffer) (st2 : TierStore)
    (hty : IsDataTypeValid ty = true) (htiers : 0 < st.tiers)
    (hm : enc.meta.dtype = ty ∧ enc.meta.shape = dims)
    (hdata : 0 < enc.meta.stop)
    (hc : Compress (Reset st) d dims es ty = (.ok enc2, st2)) :
    ((Reset st).currentTier = 0 ∧ ∀ i, (Reset st).bufAt i = []) ∧
    Decompress (Reset st) enc dims ty = .error .tierDataMissing ∧
    Decompress st2 enc2 dims ty = .ok d := by
  refine ⟨⟨rfl, fun i => getD_replicate_nil st.tiers i⟩, ?_, ?_⟩
  · have hn : ¬(enc.meta.tier < (Reset st).buffers.length ∧
        enc.meta.stop ≤ ((Reset st).bufAt enc.meta.tier).length) := by
      rintro ⟨h1, h2⟩
      have hb : (Reset st).bufAt enc.meta.tier = [] := getD_replicate_nil _ _
      rw [hb] at h2
      simp at h2
      omega
    unfold Decompress
    rw [if_pos hty, if_pos hm, if_neg hn]
  · exact decompress_after_compress (Reset st) d dims es ty enc2 st2 hty
      ⟨by simp [Reset], htiers⟩ hc

/-- Witness for C5: two tiers with pre-existing data referenced by an
encoded buffer; after reset that buffer fails and a fresh pair works. -/
theorem c5_reset_clears_invalidates_witness :
    Decompress (Reset ⟨2, [[5], []], 1⟩) ⟨⟨0, 0, 1, [1], .int32, 1⟩, [5]⟩
      [1] .int32 = .error .tierDataMissing ∧
    Decompress (Compress (Reset ⟨2, [[5], []], 1⟩) [9] [1] 1 .int32).2
      ⟨⟨0, 0, 1, [1], .int32, 1⟩, [9]⟩ [1] .int32 = .ok [9] :=
  ⟨(c5_reset_clears_invalidates ⟨2, [[5], []], 1⟩
      ⟨⟨0, 0, 1, [1], .int32, 1⟩, [5]⟩ [9] [1] 1 .int32
      ⟨⟨0, 0, 1, [1], .int32, 1⟩, [9]⟩
      (Compress (Reset ⟨2, [[5], []], 1⟩) [9] [1] 1 .int32).2
      (by decide) (by decide) ⟨rfl, rfl⟩ (by decide) rfl).2.1,
   (c5_reset_clears_invalidates ⟨2, [[5], []], 1⟩
      ⟨⟨0, 0, 1, [1], .int32, 1⟩, [5]⟩ [9] [1] 1 .int32
      ⟨⟨0, 0, 1, [1], .int32, 1⟩, [9]⟩
      (Compress (Reset ⟨2, [[5], []], 1⟩) [9] [1] 1 .int32).2
      (by decide) (by decide) ⟨rfl, rfl⟩ (by decide) rfl).2.2⟩

/-- Claim C6: when Compress fails, the returned store is exactly the store
passed in — no tier buffer is touched and the cursor is not advanced; the
error return carries no output bytes. -/
theorem c6_failure_atomicity (st : TierStore) (d dims : List Nat) (es : Nat)
    (ty : DataType) (e : SiriusError)
    (h : (Compress st d dims es ty).1 = .error e) :
    (Compress st d dims es ty).2 = st ∧
    (Compress st d dims es ty).2.currentTier = st.currentTier := by
  have h2 : (Compress st d dims es ty).2 = st := by
    unfold Compress at h ⊢
    by_cases hty : IsDataTypeValid ty = true
    · rw [if_pos hty] at h ⊢
      by_cases ht : st.tiers = 0
      · rw [if_pos ht]
      · rw [if_neg ht] at h
        simp at h
    · rw [if_neg hty]
  exact ⟨h2, by rw [h2]⟩

/-- Witness for C6: a rejected call (string type) leaves the store as it
was. -/
theorem c6_failure_atomicity_witness :
    (Compress (initStore 2) [1] [1] 1 .strType).2 = initStore 2 :=
  (c6_failure_atomicity (initStore 2) [1] [1] 1 .strType .typeUnsupported
    rfl).1

/-- Claim C7: no operation other than Reset shrinks a tier buffer —
whatever the outcome of a Compress call, every tier buffer's length is at
least what it was before the call (it only appends), and Decompress leaves
the store untouched. -/
theorem c7_tier_buffer_monotonic (st : TierStore) (d dims : List Nat)
    (es : Nat) (ty : DataType) (enc : EncodedBuffer) :
    (∀ i, (st.bufAt i).length ≤ ((Compress st d dims es ty).2.bufAt i).length) ∧
    (DecompressRun st enc dims ty).2 = st := by
  refine ⟨?_, rfl⟩
  intro i
  unfold Compress
  by_cases hty : IsDataTypeValid ty = true
  · rw [if_pos hty]
    by_cases ht : st.tiers = 0
    · rw [if_pos ht]
    · rw [if_neg ht]
      show (st.bufAt i).length ≤
        ((st.buffers.set st.currentTier
          (st.bufAt st.currentTier ++ d)).getD i []).length
      by_cases hi : i = st.currentTier
      · rw [hi]
        by_cases hlt : st.currentTier < st.buffers.length
        · rw [getD_set_self _ _ _ hlt, List.length_append]
          exact Nat.le_add_right _ _
        · have hb : st.bufAt st.currentTier = [] := by
            unfold TierStore.bufAt
            exact List.getD_eq_default _ _ (by omega)
          rw [hb]
          exact Nat.zero_le _
      · rw [getD_set_ne _ _ _ _ hi]
        exact Nat.le_refl _
  · rw [if_neg hty]

/-- Claim C8: a successful Compress call on a nonempty input returns an
output embedding exactly the input bytes, and its serialized size — the
number of bytes written out — is strictly positive. -/
theorem c8_compress_output_nonzero (st : TierStore) (d dims : List Nat)
    (es : Nat) (ty : DataType) (enc : EncodedBuffer) (st' : TierStore)
    (hd : d ≠ []) (h : Compress st d dims es ty = (.ok enc, st')) :
    enc.payload = d ∧ 0 < encodedSize enc := by
  have hty : IsDataTypeValid ty = true := by
    by_contra hty
    unfold Compress at h
    rw [if_neg hty] at h
    exact absurd (Prod.mk.injEq .. ▸ h).1 (by simp)
  have ht : st.tiers ≠ 0 := by
    intro ht
    unfold Compress at h
    rw [if_pos hty, if_pos ht] at h
    exact absurd (Prod.mk.injEq .. ▸ h).1 (by simp)
  rw [Compress_ok st d dims es ty hty ht] at h
  obtain rfl : enc = _ := (Except.ok.injEq .. ▸ (Prod.mk.injEq .. ▸ h).1).symm
  refine ⟨rfl, ?_⟩
  unfold encodedSize
  omega

/-- Witness for C8 at a concrete one-byte input. -/
theorem c8_compress_output_nonzero_witness :
    ([1] : List Nat) ≠ [] ∧
    0 < encodedSize ⟨⟨0, 0, 1, [1], .int32, 1⟩, [1]⟩ :=
  ⟨by decide,
   (c8_compress_output_nonzero (initStore 2) [1] [1] 1 .int32
      ⟨⟨0, 0, 1, [1], .int32, 1⟩, [1]⟩
      (Compress (initStore 2) [1] [1] 1 .int32).2 (by decide) rfl).2⟩

/-- Claim C9: the type validator is a pure function of the element type
alone — it takes no store and mutates nothing — so any two calls with the
same type return the same boolean. -/
theorem c9_isDataTypeValid_stable (t1 t2 : DataType) (h : t1 = t2) :
    IsDataTypeValid t1 = IsDataTypeValid t2 := by
  rw [h]

/-- Witness for C9: two calls on `int32`. -/
theorem c9_isDataTypeValid_stable_witness :
    IsDataTypeValid .int32 = IsDataTypeValid .int32 :=
  c9_isDataTypeValid_stable .int32 .int32 rfl

/-- Claim C10: the defaulted destructor of an instance leaves the static
Tier Store byte-for-byte unchanged — every tier buffer and the cursor
survive, and any decompression gives the same result after the destruction
as before it, so encoded buffers remain decodable. -/
theorem c10_destruction_preserves_tier_state (st : TierStore)
    (enc : EncodedBuffer) (dims : List Nat) (ty : DataType) :
    destructSirius st = st ∧
    (∀ i, (destructSirius st).bufAt i = st.bufAt i) ∧
    (destructSirius st).currentTier = st.currentTier ∧
    Decompress (destructSirius st) enc dims ty = Decompress st enc dims ty :=
  ⟨rfl, fun _ => rfl, rfl, rfl⟩

example : (Compress (initStore 2) [1, 2, 3] [3] 1 .int32).2.currentTier = 1 := by
  decide

example :
    (Compress (initStore 2) [1, 2, 3] [3] 1 .int32).1 =
      .ok ⟨⟨0, 0, 3, [3], .int32, 1⟩, [1, 2, 3]⟩ := rfl

example :
    Decompress (Compress (initStore 2) [1, 2, 3] [3] 1 .int32).2
      ⟨⟨0, 0, 3, [3], .int32, 1⟩, [1, 2, 3]⟩ [3] .int32 = .ok [1, 2, 3] := rfl
